import Mathlib

/-!
# Verification of the macOS USB device watcher (`src/watcher/macos.rs`)

Shallow embedding of `MacosUsbWatcher::start_monitoring`,
`get_device_property_u16` and `get_device_property_string`.

The IOKit native API is modelled as an oracle:
* a native record (`NativeRecord`) carries the `io_object_t` id returned by
  `IOIteratorNext`, the status and buffer contents of
  `IORegistryEntryGetName`, and an association list of CF property values
  keyed by property name (the result of `IORegistryEntryCreateCFProperty`);
* a CF property value (`CFPropValue`) records what `CFNumberGetValue` with
  `kCFNumberSInt16Type` writes (an optional 16-bit pattern; `none` models a
  type mismatch / coercion failure) and what the `CFString` coercion yields;
* the registry (`Registry`) records whether `IOServiceMatching` returned a
  non-null dictionary, the `kern_return_t` of `IOServiceGetMatchingServices`,
  and the finite sequence of records the iterator yields before the `0`
  sentinel;
* `chrono::Utc::now()` is a clock oracle `Nat → Nat` (the value of the i-th
  call, as an abstract UTC instant);
* the tokio channel is an acceptance oracle `Nat → Bool` (whether the i-th
  `tx.send` is accepted by the channel).

Resource operations (record handles, property references, the iterator) are
made observable through a trace of `ResOp` events emitted exactly where the
source acquires and releases them.
-/

/-- `DeviceEventType` from `device_info`: closed variant set. -/
inductive DeviceEventType where
  | Connected
  | Disconnected
deriving DecidableEq, Repr

/-- `DeviceHandle` from `device_info`, macOS variant: wraps the textual
rendering of the native record's id (`format!("{device}")`). -/
inductive DeviceHandle where
  | Macos (device_id : String)
deriving DecidableEq, Repr

/-- `UsbDeviceInfo`: the domain event produced once per enumerated record.
The `chrono::DateTime<Utc>` timestamp is modelled as an abstract instant. -/
structure UsbDeviceInfo where
  device_name : String
  vendor_id : String
  product_id : String
  serial_number : Option String
  timestamp : Nat
  event_type : DeviceEventType
  device_handle : DeviceHandle
deriving DecidableEq, Repr

/-- A CF property value as observed through the two coercions the source
performs: `asSInt16` is what `CFNumberGetValue(_, kCFNumberSInt16Type, &mut
value)` writes into the 16-bit store on success (`none` on type mismatch or
coercion failure), `asText` is the `CFString` text coercion. -/
structure CFPropValue where
  asSInt16 : Option Nat
  asText : String
deriving DecidableEq, Repr

/-- A native registry record: the nonzero `io_object_t` returned by
`IOIteratorNext`, the `kern_return_t` and buffer contents of
`IORegistryEntryGetName`, and the property table consulted by
`IORegistryEntryCreateCFProperty` (a key absent from the list models a null
property reference). -/
structure NativeRecord where
  id : Nat
  nameKr : Int
  nameBuf : String
  props : List (String × CFPropValue)
deriving DecidableEq, Repr

/-- The native registry oracle: whether `IOServiceMatching` returned a
non-null dictionary, the status of `IOServiceGetMatchingServices`, and the
records the iterator yields (in order) before the `0` sentinel. -/
structure Registry where
  matchingDictOk : Bool
  status : Int
  records : List NativeRecord
deriving DecidableEq, Repr

/-- Observable resource operations on native IOKit objects. -/
inductive ResOp where
  | acquireRecord (id : Nat)
  | releaseRecord (id : Nat)
  | acquireProp (rid : Nat) (key : String)
  | releaseProp (rid : Nat) (key : String)
  | acquireIter
  | releaseIter
deriving DecidableEq, Repr

/-- `MacosUsbWatcher::get_device_property_u16`: looks the key up via
`IORegistryEntryCreateCFProperty`; a null reference yields `None`; otherwise
`CFNumberGetValue` with `kCFNumberSInt16Type` either writes a 16-bit value
(success) or fails (type mismatch), and the reference is released on both
branches.  The `std::str::from_utf8(property_name).ok()?` guard cannot fail
here because Lean strings are valid UTF-8 by construction. -/
def get_device_property_u16 (device : NativeRecord) (property_name : String) :
    Option Nat :=
  match device.props.lookup property_name with
  | none => none
  | some prop =>
    match prop.asSInt16 with
    | some value => some (value % 65536)
    | none => none

/-- `MacosUsbWatcher::get_device_property_string`: same lookup discipline;
the property is coerced to text and an empty resulting string is reported as
absence (`None`). -/
def get_device_property_string (device : NativeRecord) (property_name : String) :
    Option String :=
  match device.props.lookup property_name with
  | none => none
  | some prop =>
    let rust_string := prop.asText
    if rust_string.isEmpty then none else some rust_string

/-- One lowercase hexadecimal digit, as produced by Rust's `{:x}` formatting
for a digit value below 16. -/
def hexDigit (n : Nat) : Char :=
  if n < 10 then Char.ofNat (48 + n) else Char.ofNat (87 + n)

/-- Rust's `format!("{:04x}", id)` for a `u16` value: four lowercase
hexadecimal digits, zero-padded. -/
def format04x (n : Nat) : String :=
  String.mk [hexDigit (n / 4096 % 16), hexDigit (n / 256 % 16),
             hexDigit (n / 16 % 16), hexDigit (n % 16)]

/-- The display-name resolution in the loop body of `start_monitoring`:
`IORegistryEntryGetName` succeeding (`kr == 0`) yields the buffer contents,
any other status falls back to the fixed placeholder. -/
def resolveName (device : NativeRecord) : String :=
  if device.nameKr = 0 then device.nameBuf else "Unknown USB Device"

/-- The per-record event construction in the loop body of `start_monitoring`:
name resolution, vendor/product extraction with the `"0000"` default and
4-digit lowercase hex formatting, serial-number extraction, fixed
`Connected` kind, and the textual device handle.  `ts` is the value of the
`chrono::Utc::now()` call made for this record. -/
def processRecord (ts : Nat) (device : NativeRecord) : UsbDeviceInfo :=
  { device_name := resolveName device
    vendor_id :=
      ((get_device_property_u16 device "idVendor").map format04x).getD "0000"
    product_id :=
      ((get_device_property_u16 device "idProduct").map format04x).getD "0000"
    serial_number := get_device_property_string device "USB Serial Number"
    timestamp := ts
    event_type := DeviceEventType.Connected
    device_handle := DeviceHandle.Macos (toString device.id) }

/-- Resource trace of one `IORegistryEntryCreateCFProperty` lookup: a
non-null reference is acquired and then released on every exit path of both
helpers (explicit `CFRelease` on both branches of the u16 helper, the
`wrap_under_create_rule` owner drop in the string helper); a null result
acquires nothing. -/
def propTrace (device : NativeRecord) (key : String) : List ResOp :=
  match device.props.lookup key with
  | none => []
  | some _ => [ResOp.acquireProp device.id key, ResOp.releaseProp device.id key]

/-- Resource trace of one loop iteration: the record handle is acquired by
`IOIteratorNext`, the three property lookups each balance their reference,
and `IOObjectRelease(device)` runs unconditionally at the end of the body. -/
def recordTrace (device : NativeRecord) : List ResOp :=
  ResOp.acquireRecord device.id ::
    (propTrace device "idVendor" ++ propTrace device "idProduct" ++
     propTrace device "USB Serial Number" ++ [ResOp.releaseRecord device.id])

/-- The outcome of one `start_monitoring` pass: the returned
`Result<(), String>`, the sequence of events for which `tx.send` was
attempted (in attempt order), the subsequence the channel accepted, and the
native-resource trace. -/
structure RunResult where
  result : Except String Unit
  sent : List UsbDeviceInfo
  delivered : List UsbDeviceInfo
  trace : List ResOp
deriving Repr

/-- The enumeration loop of `start_monitoring` over the records the iterator
yields before the sentinel: each record is processed in order, its event's
send is attempted exactly once (`let _ = self.tx.send(info).await` discards
the send result), and the record's resources are traced.  `i` counts prior
iterations, indexing the clock and acceptance oracles. -/
def enumLoop (clock : Nat → Nat) (accept : Nat → Bool) (i : Nat) :
    List NativeRecord → List UsbDeviceInfo × List UsbDeviceInfo × List ResOp
  | [] => ([], [], [])
  | device :: rest =>
    let info := processRecord (clock i) device
    let out := enumLoop clock accept (i + 1) rest
    (info :: out.1,
     (if accept i then [info] else []) ++ out.2.1,
     recordTrace device ++ out.2.2)

/-- `MacosUsbWatcher::start_monitoring`: a null matching dictionary aborts
with the initialization error; a non-zero `IOServiceGetMatchingServices`
status aborts with the enumeration error carrying the status verbatim;
otherwise the iterator is drawn to the sentinel, one event per record is
built and its send attempted, each record is released, the iterator is
released after the loop, and the pass returns `Ok(())`. -/
def start_monitoring (reg : Registry) (clock : Nat → Nat)
    (accept : Nat → Bool) : RunResult :=
  if reg.matchingDictOk = false then
    { result := Except.error "Failed to create matching dictionary for IOUSBDevice"
      sent := [], delivered := [], trace := [] }
  else if reg.status ≠ 0 then
    { result := Except.error
        ("IOServiceGetMatchingServices failed: " ++ toString reg.status)
      sent := [], delivered := [], trace := [] }
  else
    let out := enumLoop clock accept 0 reg.records
    { result := Except.ok ()
      sent := out.1
      delivered := out.2.1
      trace := ResOp.acquireIter :: (out.2.2 ++ [ResOp.releaseIter]) }

/-- One character of Rust's lowercase hex alphabet: `'0'..'9'` or `'a'..'f'`. -/
def isLowerHexDigit (c : Char) : Bool :=
  (48 ≤ c.toNat && c.toNat ≤ 57) || (97 ≤ c.toNat && c.toNat ≤ 102)

/-- A string of exactly 4 lowercase hexadecimal digits. -/
def is4LowerHex (s : String) : Bool :=
  s.length == 4 && s.toList.all isLowerHexDigit

/-- Number of occurrences of a resource operation in a trace. -/
def countOp : List ResOp → ResOp → Nat
  | [], _ => 0
  | o :: t, op => (if o = op then 1 else 0) + countOp t op

/-- The iterator as the source consumes it: `IOIteratorNext` is a stream of
responses, `none` modelling the `0` sentinel.  `enumFuel` runs the loop of
`start_monitoring` for at most `fuel` draws, returning `none` when the
sentinel was not reached within the budget (the loop still running). -/
def enumFuel (stream : Nat → Option NativeRecord) (clock : Nat → Nat)
    (accept : Nat → Bool) (i : Nat) :
    Nat → Option (List UsbDeviceInfo × List UsbDeviceInfo × List ResOp)
  | 0 => none
  | fuel + 1 =>
    match stream i with
    | none => some ([], [], [])
    | some device =>
      match enumFuel stream clock accept (i + 1) fuel with
      | none => none
      | some out =>
        some (processRecord (clock i) device :: out.1,
              (if accept i then [processRecord (clock i) device] else []) ++ out.2.1,
              recordTrace device ++ out.2.2)

/-- `start_monitoring` over the stream view of the iterator: identical error
handling, and the loop bounded by `fuel` draws (`none` when still running). -/
def start_monitoring_fuel (matchingDictOk : Bool) (status : Int)
    (stream : Nat → Option NativeRecord) (clock : Nat → Nat)
    (accept : Nat → Bool) (fuel : Nat) : Option RunResult :=
  if matchingDictOk = false then
    some { result := Except.error "Failed to create matching dictionary for IOUSBDevice"
           sent := [], delivered := [], trace := [] }
  else if status ≠ 0 then
    some { result := Except.error
             ("IOServiceGetMatchingServices failed: " ++ toString status)
           sent := [], delivered := [], trace := [] }
  else
    match enumFuel stream clock accept 0 fuel with
    | none => none
    | some out =>
      some { result := Except.ok ()
             sent := out.1
             delivered := out.2.1
             trace := ResOp.acquireIter :: (out.2.2 ++ [ResOp.releaseIter]) }

/-- Two events agree on every field except the capture timestamp. -/
def sameExceptTimestamp (a b : UsbDeviceInfo) : Prop :=
  a.device_name = b.device_name ∧ a.vendor_id = b.vendor_id ∧
  a.product_id = b.product_id ∧ a.serial_number = b.serial_number ∧
  a.event_type = b.event_type ∧ a.device_handle = b.device_handle

/-- Sample record with all properties present: vendor `0x1234`, product
`0x5678`, serial `"ABC123"`, name `"Widget"`. -/
def sampleRecordA : NativeRecord :=
  { id := 1, nameKr := 0, nameBuf := "Widget"
    props := [("idVendor", { asSInt16 := some 4660, asText := "4660" }),
              ("idProduct", { asSInt16 := some 22136, asText := "22136" }),
              ("USB Serial Number", { asSInt16 := none, asText := "ABC123" })] }

/-- Sample record with no properties and a failing name lookup. -/
def sampleRecordB : NativeRecord :=
  { id := 2, nameKr := -1, nameBuf := "", props := [] }

/-- Sample registry: filter constructed, lookup succeeded, two records. -/
def sampleRegistry : Registry :=
  { matchingDictOk := true, status := 0, records := [sampleRecordA, sampleRecordB] }

/-- Sample registry whose matching dictionary could not be constructed. -/
def badDictRegistry : Registry :=
  { matchingDictOk := false, status := 0, records := [] }

/-- Sample registry whose `IOServiceGetMatchingServices` call failed with
`kIOReturnNoMemory`-style status `-536870206`. -/
def badStatusRegistry : Registry :=
  { matchingDictOk := true, status := -536870206, records := [] }

/-! ## Helper lemmas -/

theorem hexDigit_lower : ∀ n : Nat, n < 16 → isLowerHexDigit (hexDigit n) = true := by
  decide

theorem format04x_is4LowerHex (n : Nat) : is4LowerHex (format04x n) = true := by
  simp only [format04x, is4LowerHex, String.toList, String.length, List.all]
  simp [hexDigit_lower _ (Nat.mod_lt _ (by norm_num))]

theorem processRecord_vendor_id (ts : Nat) (d : NativeRecord) :
    (processRecord ts d).vendor_id =
      ((get_device_property_u16 d "idVendor").map format04x).getD "0000" := rfl

theorem processRecord_product_id (ts : Nat) (d : NativeRecord) :
    (processRecord ts d).product_id =
      ((get_device_property_u16 d "idProduct").map format04x).getD "0000" := rfl

theorem processRecord_vendor_hex (ts : Nat) (d : NativeRecord) :
    is4LowerHex (processRecord ts d).vendor_id = true := by
  rw [processRecord_vendor_id]
  cases h : get_device_property_u16 d "idVendor" with
  | none => decide
  | some v => simp [format04x_is4LowerHex]

theorem processRecord_product_hex (ts : Nat) (d : NativeRecord) :
    is4LowerHex (processRecord ts d).product_id = true := by
  rw [processRecord_product_id]
  cases h : get_device_property_u16 d "idProduct" with
  | none => decide
  | some v => simp [format04x_is4LowerHex]

theorem mem_enumLoop_sent {clock : Nat → Nat} {accept : Nat → Bool} :
    ∀ (rs : List NativeRecord) (i : Nat) (info : UsbDeviceInfo),
      info ∈ (enumLoop clock accept i rs).1 →
      ∃ ts device, device ∈ rs ∧ info = processRecord ts device := by
  intro rs
  induction rs with
  | nil => intro i info h; simp [enumLoop] at h
  | cons d rest ih =>
    intro i info h
    simp only [enumLoop] at h
    rcases List.mem_cons.mp h with h1 | h2
    · exact ⟨clock i, d, List.mem_cons_self .., h1⟩
    · obtain ⟨ts, dev, hd, he⟩ := ih (i + 1) info h2
      exact ⟨ts, dev, List.mem_cons_of_mem _ hd, he⟩

theorem mem_start_monitoring_sent {reg : Registry} {clock : Nat → Nat}
    {accept : Nat → Bool} {info : UsbDeviceInfo}
    (h : info ∈ (start_monitoring reg clock accept).sent) :
    ∃ ts device, device ∈ reg.records ∧ info = processRecord ts device := by
  unfold start_monitoring at h
  by_cases h1 : reg.matchingDictOk = false
  · simp [h1] at h
  · by_cases h2 : reg.status = 0
    · simp [h1, h2] at h
      exact mem_enumLoop_sent _ _ _ h
    · simp [h1, h2] at h

theorem get_device_property_string_ne_empty (device : NativeRecord)
    (key : String) (s : String)
    (h : get_device_property_string device key = some s) : s ≠ "" := by
  unfold get_device_property_string at h
  cases hl : device.props.lookup key with
  | none => rw [hl] at h; simp at h
  | some p =>
    rw [hl] at h
    simp only [] at h
    by_cases he : p.asText.isEmpty
    · rw [if_pos he] at h; simp at h
    · rw [if_neg he] at h
      obtain rfl : p.asText = s := by simpa using h
      simpa [String.isEmpty_iff] using he

/-! ## Claim theorems -/

/-- C3: every event sent by `start_monitoring` carries vendor and product
identifiers of exactly 4 lowercase hexadecimal digits, and an absent or
type-mismatched numeric property makes the corresponding field `"0000"`
rather than an error. -/
theorem vendor_product_4hex_default (reg : Registry) (clock : Nat → Nat)
    (accept : Nat → Bool) :
    (∀ info ∈ (start_monitoring reg clock accept).sent,
        is4LowerHex info.vendor_id = true ∧ is4LowerHex info.product_id = true)
    ∧ (∀ (ts : Nat) (d : NativeRecord),
        get_device_property_u16 d "idVendor" = none →
          (processRecord ts d).vendor_id = "0000")
    ∧ (∀ (ts : Nat) (d : NativeRecord),
        get_device_property_u16 d "idProduct" = none →
          (processRecord ts d).product_id = "0000") := by
  refine ⟨?_, ?_, ?_⟩
  · intro info h
    obtain ⟨ts, d, _, he⟩ := mem_start_monitoring_sent h
    subst he
    exact ⟨processRecord_vendor_hex ts d, processRecord_product_hex ts d⟩
  · intro ts d h; rw [processRecord_vendor_id, h]; rfl
  · intro ts d h; rw [processRecord_product_id, h]; rfl

/-- Witness for C3 on the sample registry: the all-properties record renders
`0x1234` as 4 lowercase hex digits, and the empty record defaults to
`"0000"`. -/
theorem vendor_product_4hex_default_witness :
    (is4LowerHex (processRecord 0 sampleRecordA).vendor_id = true ∧
      is4LowerHex (processRecord 0 sampleRecordA).product_id = true) ∧
    (processRecord 0 sampleRecordB).vendor_id = "0000" :=
  ⟨(vendor_product_4hex_default sampleRegistry (fun _ => 0) (fun _ => true)).1
      (processRecord 0 sampleRecordA) (by decide),
   (vendor_product_4hex_default sampleRegistry (fun _ => 0) (fun _ => true)).2.1
      0 sampleRecordB (by decide)⟩

/-- C4: every event produced by `start_monitoring` has event kind
`Connected`; no run can produce any other kind. -/
theorem events_always_connected (reg : Registry) (clock : Nat → Nat)
    (accept : Nat → Bool) :
    ∀ info ∈ (start_monitoring reg clock accept).sent,
      info.event_type = DeviceEventType.Connected := by
  intro info h
  obtain ⟨ts, d, _, he⟩ := mem_start_monitoring_sent h
  subst he
  rfl

/-- Witness for C4: the first sample event is `Connected`. -/
theorem events_always_connected_witness :
    (processRecord 0 sampleRecordA).event_type = DeviceEventType.Connected :=
  events_always_connected sampleRegistry (fun _ => 0) (fun _ => false)
    (processRecord 0 sampleRecordA) (by decide)

/-- C5: `get_device_property_u16` is a total function (it is defined for
every record and key and never signals an error): an absent property yields
`none`, a present but non-coercible property yields `none`, and every
success comes from a present property whose 16-bit coercion succeeded. -/
theorem read_u16_total_spec (device : NativeRecord) (key : String) :
    (device.props.lookup key = none → get_device_property_u16 device key = none)
    ∧ (∀ p, device.props.lookup key = some p → p.asSInt16 = none →
        get_device_property_u16 device key = none)
    ∧ (∀ v, get_device_property_u16 device key = some v →
        ∃ p w, device.props.lookup key = some p ∧ p.asSInt16 = some w ∧
          v = w % 65536) := by
  refine ⟨fun h => by simp [get_device_property_u16, h],
          fun p hp hn => by simp [get_device_property_u16, hp, hn],
          fun v hv => ?_⟩
  unfold get_device_property_u16 at hv
  cases hl : device.props.lookup key with
  | none => rw [hl] at hv; simp at hv
  | some p =>
    rw [hl] at hv
    cases hs : p.asSInt16 with
    | none => simp [hs] at hv
    | some w =>
      simp [hs] at hv
      exact ⟨p, w, rfl, hs, hv.symm⟩

/-- Witness for C5: absent property on the empty sample record yields
`none`; the present `idVendor` of the full sample record succeeds as a
present, coercible property. -/
theorem read_u16_total_spec_witness :
    get_device_property_u16 sampleRecordB "idVendor" = none ∧
    ∃ p w, sampleRecordA.props.lookup "idVendor" = some p ∧
      p.asSInt16 = some w ∧ 4660 = w % 65536 :=
  ⟨(read_u16_total_spec sampleRecordB "idVendor").1 (by decide),
   (read_u16_total_spec sampleRecordA "idVendor").2.2 4660 (by decide)⟩

/-- C6: `get_device_property_string` yields `none` for an absent property
and for an empty coerced text, never `some ""`; consequently every produced
event's serial number is either absent or non-empty. -/
theorem read_string_empty_is_absent (device : NativeRecord) (key : String) :
    ((device.props.lookup key = none →
        get_device_property_string device key = none)
    ∧ (∀ p, device.props.lookup key = some p → p.asText = "" →
        get_device_property_string device key = none)
    ∧ (∀ s, get_device_property_string device key = some s → s ≠ ""))
    ∧ ∀ (reg : Registry) (clock : Nat → Nat) (accept : Nat → Bool),
        ∀ info ∈ (start_monitoring reg clock accept).sent,
          info.serial_number ≠ some "" := by
  refine ⟨⟨fun h => by simp [get_device_property_string, h],
           fun p hp ht => by simp [get_device_property_string, hp, ht, String.isEmpty_iff],
           fun s => get_device_property_string_ne_empty device key s⟩,
          fun reg clock accept info h hc => ?_⟩
  obtain ⟨ts, d, _, he⟩ := mem_start_monitoring_sent h
  subst he
  exact get_device_property_string_ne_empty d "USB Serial Number" "" hc rfl

/-- Witness for C6: the full sample record yields its non-empty serial, the
empty sample record yields `none`, and `some ""` is impossible there. -/
theorem read_string_empty_is_absent_witness :
    get_device_property_string sampleRecordB "USB Serial Number" = none ∧
    (processRecord 0 sampleRecordA).serial_number ≠ some "" :=
  ⟨(read_string_empty_is_absent sampleRecordB "USB Serial Number").1.1 (by decide),
   (read_string_empty_is_absent sampleRecordA "x").2 sampleRegistry
     (fun _ => 0) (fun _ => true) (processRecord 0 sampleRecordA) (by decide)⟩

theorem enumLoop_sent_length (clock : Nat → Nat) (accept : Nat → Bool) :
    ∀ (rs : List NativeRecord) (i : Nat),
      (enumLoop clock accept i rs).1.length = rs.length := by
  intro rs
  induction rs with
  | nil => intro i; rfl
  | cons d rest ih => intro i; simp [enumLoop, ih]

theorem enumLoop_sent_getElem? (clock : Nat → Nat) (accept : Nat → Bool) :
    ∀ (rs : List NativeRecord) (i j : Nat),
      (enumLoop clock accept i rs).1[j]? =
        (rs[j]?).map (fun r => processRecord (clock (i + j)) r) := by
  intro rs
  induction rs with
  | nil => intro i j; simp [enumLoop]
  | cons d rest ih =>
    intro i j
    cases j with
    | zero => simp [enumLoop]
    | succ k =>
      have harith : i + 1 + k = i + (k + 1) := by omega
      simpa [enumLoop, harith] using ih (i + 1) k

theorem enumLoop_delivered_nil (clock : Nat → Nat) (accept : Nat → Bool)
    (haccept : ∀ j, accept j = false) :
    ∀ (rs : List NativeRecord) (i : Nat),
      (enumLoop clock accept i rs).2.1 = [] := by
  intro rs
  induction rs with
  | nil => intro i; rfl
  | cons d rest ih => intro i; simp [enumLoop, haccept i, ih]

/-- C1: the channel send is best-effort: whatever the channel does with each
attempt, the pass still returns `Ok` and one send is attempted for every
record; with no live receiver (every send refused) all attempts are dropped
and the pass still returns `Ok`. -/
theorem best_effort_send (reg : Registry) (clock : Nat → Nat)
    (accept : Nat → Bool)
    (hdict : reg.matchingDictOk = true) (hst : reg.status = 0) :
    (start_monitoring reg clock accept).result = Except.ok () ∧
    (start_monitoring reg clock accept).sent.length = reg.records.length ∧
    ((∀ j, accept j = false) →
      (start_monitoring reg clock accept).delivered = []) := by
  unfold start_monitoring
  rw [hdict, hst]
  refine ⟨rfl, enumLoop_sent_length clock accept reg.records 0, fun h => ?_⟩
  exact enumLoop_delivered_nil clock accept h reg.records 0

/-- Witness for C1: the 2-record sample registry with every send refused
still returns `Ok` with both attempts dropped. -/
theorem best_effort_send_witness :
    (start_monitoring sampleRegistry (fun _ => 0) (fun _ => false)).result =
      Except.ok () ∧
    (start_monitoring sampleRegistry (fun _ => 0) (fun _ => false)).sent.length = 2 ∧
    (start_monitoring sampleRegistry (fun _ => 0) (fun _ => false)).delivered = [] := by
  have h := best_effort_send sampleRegistry (fun _ => 0) (fun _ => false)
    (by decide) (by decide)
  exact ⟨h.1, by rw [h.2.1]; decide, h.2.2 (fun j => rfl)⟩

/-- C2: `start_monitoring` fails in exactly two ways, both with zero events
produced: the initialization error when the matching dictionary cannot be
constructed, and the enumeration error carrying the non-zero status
verbatim; in every other situation it returns `Ok`. -/
theorem fatal_errors_exactly_two (reg : Registry) (clock : Nat → Nat)
    (accept : Nat → Bool) :
    (reg.matchingDictOk = false →
      (start_monitoring reg clock accept).result =
        Except.error "Failed to create matching dictionary for IOUSBDevice" ∧
      (start_monitoring reg clock accept).sent = [])
    ∧ (reg.matchingDictOk = true → reg.status ≠ 0 →
      (start_monitoring reg clock accept).result =
        Except.error ("IOServiceGetMatchingServices failed: " ++ toString reg.status) ∧
      (start_monitoring reg clock accept).sent = [])
    ∧ (reg.matchingDictOk = true → reg.status = 0 →
      (start_monitoring reg clock accept).result = Except.ok ()) := by
  refine ⟨fun h => ?_, fun h1 h2 => ?_, fun h1 h2 => ?_⟩
  · unfold start_monitoring; rw [h]; exact ⟨rfl, rfl⟩
  · unfold start_monitoring; rw [h1, if_neg (by simp), if_pos h2]; exact ⟨rfl, rfl⟩
  · unfold start_monitoring; rw [h1, h2]; rfl

/-- Witness for C2: the two failing sample registries produce the two error
values with zero events, and the good sample registry returns `Ok`. -/
theorem fatal_errors_exactly_two_witness :
    ((start_monitoring badDictRegistry (fun _ => 0) (fun _ => true)).result =
        Except.error "Failed to create matching dictionary for IOUSBDevice" ∧
      (start_monitoring badDictRegistry (fun _ => 0) (fun _ => true)).sent = []) ∧
    ((start_monitoring badStatusRegistry (fun _ => 0) (fun _ => true)).result =
        Except.error "IOServiceGetMatchingServices failed: -536870206" ∧
      (start_monitoring badStatusRegistry (fun _ => 0) (fun _ => true)).sent = []) ∧
    (start_monitoring sampleRegistry (fun _ => 0) (fun _ => true)).result =
      Except.ok () := by
  refine ⟨(fatal_errors_exactly_two badDictRegistry (fun _ => 0) (fun _ => true)).1 (by decide),
          ?_,
          (fatal_errors_exactly_two sampleRegistry (fun _ => 0) (fun _ => true)).2.2
            (by decide) (by decide)⟩
  have h := (fatal_errors_exactly_two badStatusRegistry (fun _ => 0) (fun _ => true)).2.1
    (by decide) (by decide)
  exact ⟨h.1.trans (congrArg Except.error (by decide)), h.2⟩

/-- C8: one send attempt per record yielded before the sentinel, in iterator
order, with no re-ordering, skipping, or deduplication: the j-th attempted
event is exactly the j-th record processed, even when every lookup on that
record fails. -/
theorem one_send_per_record_in_order (reg : Registry) (clock : Nat → Nat)
    (accept : Nat → Bool)
    (hdict : reg.matchingDictOk = true) (hst : reg.status = 0) :
    (start_monitoring reg clock accept).sent.length = reg.records.length ∧
    ∀ j : Nat, (start_monitoring reg clock accept).sent[j]? =
      (reg.records[j]?).map (fun r => processRecord (clock j) r) := by
  unfold start_monitoring
  rw [hdict, hst]
  refine ⟨enumLoop_sent_length clock accept reg.records 0, fun j => ?_⟩
  simpa using enumLoop_sent_getElem? clock accept reg.records 0 j

/-- Witness for C8: on the sample registry the second attempted event is the
processed all-defaults record, in position. -/
theorem one_send_per_record_in_order_witness :
    (start_monitoring sampleRegistry (fun t => t) (fun _ => true)).sent[1]? =
      some (processRecord 1 sampleRecordB) := by
  have h := (one_send_per_record_in_order sampleRegistry (fun t => t) (fun _ => true)
    (by decide) (by decide)).2 1
  rw [h]; decide

theorem processRecord_sameExceptTimestamp (t1 t2 : Nat) (d : NativeRecord) :
    sameExceptTimestamp (processRecord t1 d) (processRecord t2 d) :=
  ⟨rfl, rfl, rfl, rfl, rfl, rfl⟩

/-- C10: two runs over the same registry responses with the same channel
acceptance return the same result and attempt the same events, field by
field, except for the capture timestamp. -/
theorem deterministic_up_to_timestamps (reg : Registry) (c1 c2 : Nat → Nat)
    (accept : Nat → Bool) :
    (start_monitoring reg c1 accept).result =
      (start_monitoring reg c2 accept).result ∧
    (start_monitoring reg c1 accept).sent.length =
      (start_monitoring reg c2 accept).sent.length ∧
    ∀ (j : Nat) (a b : UsbDeviceInfo),
      (start_monitoring reg c1 accept).sent[j]? = some a →
      (start_monitoring reg c2 accept).sent[j]? = some b →
      sameExceptTimestamp a b := by
  by_cases hdict : reg.matchingDictOk = true
  · by_cases hst : reg.status = 0
    · have h1 := one_send_per_record_in_order reg c1 accept hdict hst
      have h2 := one_send_per_record_in_order reg c2 accept hdict hst
      refine ⟨?_, h1.1.trans h2.1.symm, fun j a b ha hb => ?_⟩
      · rw [(fatal_errors_exactly_two reg c1 accept).2.2 hdict hst,
            (fatal_errors_exactly_two reg c2 accept).2.2 hdict hst]
      · rw [h1.2 j] at ha
        rw [h2.2 j] at hb
        cases hr : reg.records[j]? with
        | none => rw [hr] at ha; simp at ha
        | some r =>
          rw [hr] at ha; rw [hr] at hb
          simp at ha hb
          rw [← ha, ← hb]
          exact processRecord_sameExceptTimestamp (c1 j) (c2 j) r
    · have h1 := (fatal_errors_exactly_two reg c1 accept).2.1 hdict hst
      have h2 := (fatal_errors_exactly_two reg c2 accept).2.1 hdict hst
      refine ⟨h1.1.trans h2.1.symm, ?_, fun j a b ha hb => ?_⟩
      · rw [h1.2, h2.2]
      · rw [h1.2] at ha; simp at ha
  · have hd : reg.matchingDictOk = false := by
      cases hm : reg.matchingDictOk
      · rfl
      · exact absurd hm hdict
    have h1 := (fatal_errors_exactly_two reg c1 accept).1 hd
    have h2 := (fatal_errors_exactly_two reg c2 accept).1 hd
    refine ⟨h1.1.trans h2.1.symm, ?_, fun j a b ha hb => ?_⟩
    · rw [h1.2, h2.2]
    · rw [h1.2] at ha; simp at ha

/-- Witness for C10: the two sample runs with different clocks agree on the
first attempted event in every field but the timestamp. -/
theorem deterministic_up_to_timestamps_witness :
    sameExceptTimestamp (processRecord 0 sampleRecordA)
      (processRecord 7 sampleRecordA) :=
  (deterministic_up_to_timestamps sampleRegistry (fun _ => 0) (fun _ => 7)
    (fun _ => true)).2.2 0 (processRecord 0 sampleRecordA)
    (processRecord 7 sampleRecordA) (by decide) (by decide)

theorem countOp_append (t1 t2 : List ResOp) (op : ResOp) :
    countOp (t1 ++ t2) op = countOp t1 op + countOp t2 op := by
  induction t1 with
  | nil => simp [countOp]
  | cons o t ih => simp [countOp, ih, Nat.add_assoc]

theorem propTrace_prop_balance (d : NativeRecord) (k : String) (rid : Nat)
    (key : String) :
    countOp (propTrace d k) (ResOp.acquireProp rid key) =
      countOp (propTrace d k) (ResOp.releaseProp rid key) := by
  unfold propTrace
  cases List.lookup k d.props with
  | none => rfl
  | some p => simp [countOp]

theorem propTrace_count_acquireRecord (d : NativeRecord) (k : String) (rid : Nat) :
    countOp (propTrace d k) (ResOp.acquireRecord rid) = 0 := by
  unfold propTrace
  cases List.lookup k d.props with
  | none => rfl
  | some p => simp [countOp]

theorem propTrace_count_releaseRecord (d : NativeRecord) (k : String) (rid : Nat) :
    countOp (propTrace d k) (ResOp.releaseRecord rid) = 0 := by
  unfold propTrace
  cases List.lookup k d.props with
  | none => rfl
  | some p => simp [countOp]

theorem propTrace_count_iter (d : NativeRecord) (k : String) :
    countOp (propTrace d k) ResOp.acquireIter = 0 ∧
    countOp (propTrace d k) ResOp.releaseIter = 0 := by
  unfold propTrace
  cases List.lookup k d.props with
  | none => exact ⟨rfl, rfl⟩
  | some p => simp [countOp]

theorem recordTrace_record_balance (d : NativeRecord) (rid : Nat) :
    countOp (recordTrace d) (ResOp.acquireRecord rid) =
      countOp (recordTrace d) (ResOp.releaseRecord rid) := by
  unfold recordTrace
  simp [countOp, countOp_append, propTrace_count_acquireRecord,
        propTrace_count_releaseRecord]

theorem recordTrace_prop_balance (d : NativeRecord) (rid : Nat) (key : String) :
    countOp (recordTrace d) (ResOp.acquireProp rid key) =
      countOp (recordTrace d) (ResOp.releaseProp rid key) := by
  unfold recordTrace
  simp [countOp, countOp_append, propTrace_prop_balance]

theorem recordTrace_count_iter (d : NativeRecord) :
    countOp (recordTrace d) ResOp.acquireIter = 0 ∧
    countOp (recordTrace d) ResOp.releaseIter = 0 := by
  unfold recordTrace
  simp [countOp, countOp_append, propTrace_count_iter]

theorem enumLoop_trace_record_balance (clock : Nat → Nat) (accept : Nat → Bool) :
    ∀ (rs : List NativeRecord) (i : Nat) (rid : Nat),
      countOp (enumLoop clock accept i rs).2.2 (ResOp.acquireRecord rid) =
        countOp (enumLoop clock accept i rs).2.2 (ResOp.releaseRecord rid) := by
  intro rs
  induction rs with
  | nil => intro i rid; rfl
  | cons d rest ih =>
    intro i rid
    simp [enumLoop, countOp_append, recordTrace_record_balance, ih (i + 1) rid]

theorem enumLoop_trace_prop_balance (clock : Nat → Nat) (accept : Nat → Bool) :
    ∀ (rs : List NativeRecord) (i : Nat) (rid : Nat) (key : String),
      countOp (enumLoop clock accept i rs).2.2 (ResOp.acquireProp rid key) =
        countOp (enumLoop clock accept i rs).2.2 (ResOp.releaseProp rid key) := by
  intro rs
  induction rs with
  | nil => intro i rid key; rfl
  | cons d rest ih =>
    intro i rid key
    simp [enumLoop, countOp_append, recordTrace_prop_balance, ih (i + 1) rid key]

theorem enumLoop_trace_count_iter (clock : Nat → Nat) (accept : Nat → Bool) :
    ∀ (rs : List NativeRecord) (i : Nat),
      countOp (enumLoop clock accept i rs).2.2 ResOp.acquireIter = 0 ∧
      countOp (enumLoop clock accept i rs).2.2 ResOp.releaseIter = 0 := by
  intro rs
  induction rs with
  | nil => intro i; exact ⟨rfl, rfl⟩
  | cons d rest ih =>
    intro i
    simp [enumLoop, countOp_append, recordTrace_count_iter, ih (i + 1)]

/-- C7: on a pass that reaches the loop, every record handle and every
property reference acquired is released the same number of times, and the
iterator is acquired and released exactly once, the release being the very
last resource operation (after the loop). -/
theorem resource_balance (reg : Registry) (clock : Nat → Nat)
    (accept : Nat → Bool)
    (hdict : reg.matchingDictOk = true) (hst : reg.status = 0) :
    (∀ rid, countOp (start_monitoring reg clock accept).trace
        (ResOp.acquireRecord rid) =
      countOp (start_monitoring reg clock accept).trace
        (ResOp.releaseRecord rid))
    ∧ (∀ rid key, countOp (start_monitoring reg clock accept).trace
        (ResOp.acquireProp rid key) =
      countOp (start_monitoring reg clock accept).trace
        (ResOp.releaseProp rid key))
    ∧ countOp (start_monitoring reg clock accept).trace ResOp.acquireIter = 1
    ∧ countOp (start_monitoring reg clock accept).trace ResOp.releaseIter = 1
    ∧ (start_monitoring reg clock accept).trace.getLast? =
        some ResOp.releaseIter := by
  unfold start_monitoring
  rw [hdict, hst]
  simp only []
  refine ⟨fun rid => ?_, fun rid key => ?_, ?_, ?_, ?_⟩
  · simp [countOp, countOp_append,
          enumLoop_trace_record_balance clock accept reg.records 0 rid]
  · simp [countOp, countOp_append,
          enumLoop_trace_prop_balance clock accept reg.records 0 rid key]
  · simp [countOp, countOp_append,
          (enumLoop_trace_count_iter clock accept reg.records 0).1]
  · simp [countOp, countOp_append,
          (enumLoop_trace_count_iter clock accept reg.records 0).2]
  · rw [show ResOp.acquireIter :: ((enumLoop clock accept 0 reg.records).2.2 ++
        [ResOp.releaseIter]) = (ResOp.acquireIter ::
          (enumLoop clock accept 0 reg.records).2.2) ++ [ResOp.releaseIter]
        from rfl]
    exact List.getLast?_concat _

/-- Witness for C7 on the sample registry: record and property operations
balance, and the iterator release closes the trace. -/
theorem resource_balance_witness :
    countOp (start_monitoring sampleRegistry (fun _ => 0) (fun _ => true)).trace
        (ResOp.acquireRecord 1) =
      countOp (start_monitoring sampleRegistry (fun _ => 0) (fun _ => true)).trace
        (ResOp.releaseRecord 1) ∧
    (start_monitoring sampleRegistry (fun _ => 0) (fun _ => true)).trace.getLast? =
      some ResOp.releaseIter := by
  have h := resource_balance sampleRegistry (fun _ => 0) (fun _ => true)
    (by decide) (by decide)
  exact ⟨h.1 1, h.2.2.2.2⟩

theorem enumFuel_succ (stream : Nat → Option NativeRecord) (clock : Nat → Nat)
    (accept : Nat → Bool) (i fuel : Nat) :
    enumFuel stream clock accept i (fuel + 1) =
      match stream i with
      | none => some ([], [], [])
      | some device =>
        match enumFuel stream clock accept (i + 1) fuel with
        | none => none
        | some out =>
          some (processRecord (clock i) device :: out.1,
                (if accept i then [processRecord (clock i) device] else [])
                  ++ out.2.1,
                recordTrace device ++ out.2.2) := rfl

theorem enumFuel_terminates (stream : Nat → Option NativeRecord)
    (clock : Nat → Nat) (accept : Nat → Bool) :
    ∀ (m i : Nat), stream (i + m) = none →
      (enumFuel stream clock accept i (m + 1)).isSome = true := by
  intro m
  induction m with
  | zero =>
    intro i h
    rw [Nat.add_zero] at h
    simp [enumFuel_succ, h]
  | succ k ih =>
    intro i h
    have harith : i + 1 + k = i + (k + 1) := by omega
    have hnext := ih (i + 1) (by rw [harith]; exact h)
    rw [enumFuel_succ]
    cases hs : stream i with
    | none => simp
    | some d =>
      cases he : enumFuel stream clock accept (i + 1) (k + 1) with
      | none => rw [he] at hnext; simp at hnext
      | some out => simp [he]

theorem enumFuel_stable (stream : Nat → Option NativeRecord)
    (clock : Nat → Nat) (accept : Nat → Bool) :
    ∀ (m i fuel : Nat), stream (i + m) = none → m < fuel →
      enumFuel stream clock accept i fuel =
        enumFuel stream clock accept i (m + 1) := by
  intro m
  induction m with
  | zero =>
    intro i fuel h hf
    obtain ⟨f, rfl⟩ : ∃ f, fuel = f + 1 := ⟨fuel - 1, by omega⟩
    simp only [Nat.add_zero] at h
    simp [enumFuel, h]
  | succ k ih =>
    intro i fuel h hf
    obtain ⟨f, rfl⟩ : ∃ f, fuel = f + 1 := ⟨fuel - 1, by omega⟩
    have harith : i + 1 + k = i + (k + 1) := by omega
    cases hs : stream i with
    | none => simp [enumFuel, hs]
    | some d =>
      have hrec := ih (i + 1) f (by rw [harith]; exact h) (by omega)
      simp [enumFuel, hs, hrec]

/-- C9: when the iterator eventually yields the sentinel (at draw `k`), the
pass completes within `k + 1` draws of the loop for any larger budget, and
the outcome never depends on the budget beyond that point: the pass is a
one-shot snapshot that does not keep waiting for further records. -/
theorem one_shot_snapshot_terminates (matchingDictOk : Bool) (status : Int)
    (stream : Nat → Option NativeRecord) (clock : Nat → Nat)
    (accept : Nat → Bool) (k : Nat) (hsentinel : stream k = none) :
    ∀ fuel, k < fuel →
      (start_monitoring_fuel matchingDictOk status stream clock accept
          fuel).isSome = true ∧
      start_monitoring_fuel matchingDictOk status stream clock accept fuel =
        start_monitoring_fuel matchingDictOk status stream clock accept
          (k + 1) := by
  intro fuel hfuel
  have h0 : stream (0 + k) = none := by simpa using hsentinel
  unfold start_monitoring_fuel
  by_cases hdict : matchingDictOk = false
  · simp [hdict]
  · by_cases hst : status ≠ 0
    · simp [hdict, hst]
    · have hstable := enumFuel_stable stream clock accept k 0 fuel h0 hfuel
      have hterm := enumFuel_terminates stream clock accept k 0 h0
      simp only [if_neg hdict, if_neg hst]
      rw [hstable]
      cases he : enumFuel stream clock accept 0 (k + 1) with
      | none => rw [he] at hterm; simp at hterm
      | some out => simp

/-- Witness for C9: an immediately exhausted iterator completes with one
draw, and a larger budget gives the same outcome. -/
theorem one_shot_snapshot_terminates_witness :
    (start_monitoring_fuel true 0 (fun _ => none) (fun _ => 0) (fun _ => true)
        5).isSome = true ∧
    start_monitoring_fuel true 0 (fun _ => none) (fun _ => 0) (fun _ => true) 5 =
      start_monitoring_fuel true 0 (fun _ => none) (fun _ => 0) (fun _ => true)
        1 :=
  one_shot_snapshot_terminates true 0 (fun _ => none) (fun _ => 0)
    (fun _ => true) 0 rfl 5 (by decide)
